import Mathlib

/-!
Verification development for the face-metrics offline-processing scripts.

The embedded code comes from:
* `offline-scripts/face_metrics.py` (`SimpleLandmark`, `clamp_unit`,
  `get_euler_angles`, `compute_face_metrics`),
* `offline-scripts/analyze-faces.py` (`build_mirrored_landmarks`,
  `build_mirrored_metrics`),
* `offline-scripts/xmp_io.py` (`inject_xmp`, `append_xmp_payload`,
  `write_xmp_to_source`).

Modelling conventions:
* Python floats are modelled as real numbers (`ℝ`); IEEE-754 rounding error is
  outside the model, but Python's decimal `round(x, n)` (round-half-to-even)
  is modelled faithfully by `pyRound`/`roundTo`.
* `numpy.arctan2 y x` is modelled as the argument of the complex number
  `x + y*I` (`Complex.arg`), which agrees with the numpy definition on ℝ
  (there are no signed zeros in ℝ).
* The transformation-matrix bytes (`struct.unpack("<16f", matrix_data)`)
  are modelled as an `Option (List ℝ)` holding the 16 decoded floats;
  `none` models Python `None` and `some []` models empty bytes (both falsy
  in `if matrix_data:`).  For a non-empty list whose length is not 16 the
  Python code raises; that region is junk in the model and no claim
  touches it.
* Out-of-range list indexing raises `IndexError` in Python; the model uses
  `List.getD` with a junk default, and every claim carries the
  `455 ≤ landmarks.length` bound under which no default is ever read.
* File contents are byte lists (`List ℕ`, each entry a byte value); the
  file-writing functions return the byte string that ends up on disk, and
  `inject_xmp` returns `(returned bool, file bytes after the call)` so that
  its no-write error branch is expressible.
-/

noncomputable section

/-- Python `round(t)` to an integer: round half to even (banker's rounding),
as documented for Python's built-in `round`. -/
def pyRound (t : ℝ) : ℤ :=
  if 1 / 2 < Int.fract t ∨ (Int.fract t = 1 / 2 ∧ Odd ⌊t⌋) then ⌊t⌋ + 1 else ⌊t⌋

/-- Python `round(x, n)` for `n` decimal places. -/
def roundTo (n : ℕ) (x : ℝ) : ℝ := (pyRound (x * 10 ^ n) : ℝ) / 10 ^ n

-- Landmark constants (indices from MediaPipe Face Landmarker), from
-- face_metrics.py.
def NOSE_TIP : ℕ := 1
def EYE_L_OUTER : ℕ := 33
def EYE_R_OUTER : ℕ := 263
def MOUTH_L_CORNER : ℕ := 61
def MOUTH_R_CORNER : ℕ := 291
def EYE_L_INNER : ℕ := 133
def EYE_R_INNER : ℕ := 362
def CHIN_TIP : ℕ := 152
def OVAL_L : ℕ := 234
def OVAL_R : ℕ := 454
def FOREHEAD_TOP : ℕ := 10

/-- `SimpleLandmark` dataclass from face_metrics.py, with its field
defaults (`z=0.0`, `visibility=1.0`, `presence=1.0`). -/
structure SimpleLandmark where
  x : ℝ
  y : ℝ
  z : ℝ := 0
  visibility : ℝ := 1
  presence : ℝ := 1

instance : Inhabited SimpleLandmark := ⟨{ x := 0, y := 0 }⟩

/-- `FaceMetrics` dataclass from face_metrics.py (39 float fields). -/
structure FaceMetrics where
  pitch : ℝ
  yaw : ℝ
  roll : ℝ
  center_x : ℝ
  center_y : ℝ
  face_width : ℝ
  face_scale : ℝ
  interocular_dist : ℝ
  nose_x : ℝ
  nose_y : ℝ
  eye_l_x : ℝ
  eye_l_y : ℝ
  eye_r_x : ℝ
  eye_r_y : ℝ
  mouth_l_x : ℝ
  mouth_l_y : ℝ
  mouth_r_x : ℝ
  mouth_r_y : ℝ
  eye_li_x : ℝ
  eye_li_y : ℝ
  eye_ri_x : ℝ
  eye_ri_y : ℝ
  iodist_inner : ℝ
  iodist_blend : ℝ
  eye_mouth_dist : ℝ
  chin_x : ℝ
  chin_y : ℝ
  oval_l_x : ℝ
  oval_l_y : ℝ
  oval_r_x : ℝ
  oval_r_y : ℝ
  oval_width : ℝ
  forehead_x : ℝ
  forehead_y : ℝ
  face_height : ℝ
  src_scale_px : ℝ
  nose_eye_dist : ℝ
  landmark_confidence : ℝ
  score : ℝ

/-- `clamp_unit` from face_metrics.py.  `ℝ` has no NaN/inf, so the
`np.isfinite` guard of the source is vacuously true here. -/
def clamp_unit (value : ℝ) : ℝ := max 0 (min 1 value)

/-- `numpy.arctan2 y x`, modelled as the argument of `x + y*I`. -/
def atan2 (y x : ℝ) : ℝ := Complex.arg ⟨x, y⟩

/-- `numpy.degrees`: radians to degrees. -/
def degrees (r : ℝ) : ℝ := r * (180 / Real.pi)

/-- `get_euler_angles` from face_metrics.py: decompose a 3x3 rotation
matrix into `(pitch, yaw, roll)` in degrees. -/
def get_euler_angles (rmat : Fin 3 → Fin 3 → ℝ) : ℝ × ℝ × ℝ :=
  let sy := Real.sqrt (rmat 0 0 * rmat 0 0 + rmat 1 0 * rmat 1 0)
  if sy < 1e-6 then
    (degrees (atan2 (-rmat 1 2) (rmat 1 1)), degrees (atan2 (-rmat 2 0) sy), 0)
  else
    (degrees (atan2 (rmat 2 1) (rmat 2 2)), degrees (atan2 (-rmat 2 0) sy),
      degrees (atan2 (rmat 1 0) (rmat 0 0)))

/-- `np.array(m_floats).reshape(4, 4)[:3, :3]` from compute_face_metrics:
the top-left 3x3 of the row-major 4x4 matrix. -/
def rmatOf (m : List ℝ) : Fin 3 → Fin 3 → ℝ :=
  fun i j => m.getD (4 * (i : ℕ) + (j : ℕ)) 0

/-- Step 1 of `compute_face_metrics` (pose from matrix): angles default to
`(0, 0, 0)`; a truthy `matrix_data` (non-`None`, non-empty) is unpacked and
decomposed. -/
def poseFromMatrix (matrix_data : Option (List ℝ)) : ℝ × ℝ × ℝ :=
  match matrix_data with
  | none => (0, 0, 0)
  | some m => if m = [] then (0, 0, 0) else get_euler_angles (rmatOf m)

-- Step 2 of `compute_face_metrics`: key points.
def p_nose (lms : List SimpleLandmark) : SimpleLandmark := lms.getD NOSE_TIP default
def p_eye_l (lms : List SimpleLandmark) : SimpleLandmark := lms.getD EYE_L_OUTER default
def p_eye_r (lms : List SimpleLandmark) : SimpleLandmark := lms.getD EYE_R_OUTER default
def p_mouth_l (lms : List SimpleLandmark) : SimpleLandmark := lms.getD MOUTH_L_CORNER default
def p_mouth_r (lms : List SimpleLandmark) : SimpleLandmark := lms.getD MOUTH_R_CORNER default
def p_eye_li (lms : List SimpleLandmark) : SimpleLandmark := lms.getD EYE_L_INNER default
def p_eye_ri (lms : List SimpleLandmark) : SimpleLandmark := lms.getD EYE_R_INNER default
def p_chin (lms : List SimpleLandmark) : SimpleLandmark := lms.getD CHIN_TIP default
def p_oval_l (lms : List SimpleLandmark) : SimpleLandmark := lms.getD OVAL_L default
def p_oval_r (lms : List SimpleLandmark) : SimpleLandmark := lms.getD OVAL_R default
def p_forehead (lms : List SimpleLandmark) : SimpleLandmark := lms.getD FOREHEAD_TOP default

/-- `confidence_points` local of `compute_face_metrics`. -/
def confidence_points (lms : List SimpleLandmark) : List SimpleLandmark :=
  [p_eye_l lms, p_eye_r lms, p_eye_li lms, p_eye_ri lms, p_nose lms,
   p_mouth_l lms, p_mouth_r lms]

/-- `confidence_values` local of `compute_face_metrics`. -/
def confidence_values (lms : List SimpleLandmark) : List ℝ :=
  (confidence_points lms).map
    (fun point => (clamp_unit point.visibility + clamp_unit point.presence) * 0.5)

/-- `landmark_confidence` local of `compute_face_metrics`:
`np.mean(confidence_values) if confidence_values else clamp_unit(score)`
(`np.mean` of a list is its sum divided by its length). -/
def landmark_confidence (lms : List SimpleLandmark) (score : ℝ) : ℝ :=
  if confidence_values lms = [] then clamp_unit score
  else (confidence_values lms).sum / ((confidence_values lms).length : ℝ)

-- Step 3 of `compute_face_metrics`: scaling and distances.
def fscale (lms : List SimpleLandmark) : ℝ :=
  Real.sqrt (((p_eye_r lms).x - (p_eye_l lms).x) ^ 2
    + ((p_eye_r lms).y - (p_eye_l lms).y) ^ 2
    + ((p_eye_r lms).z - (p_eye_l lms).z) ^ 2)

def iodist_outer (lms : List SimpleLandmark) : ℝ :=
  Real.sqrt (((p_eye_r lms).x - (p_eye_l lms).x) ^ 2
    + ((p_eye_r lms).y - (p_eye_l lms).y) ^ 2)

def iodist_inner (lms : List SimpleLandmark) : ℝ :=
  Real.sqrt (((p_eye_ri lms).x - (p_eye_li lms).x) ^ 2
    + ((p_eye_ri lms).y - (p_eye_li lms).y) ^ 2)

def iodist_blend (lms : List SimpleLandmark) : ℝ :=
  0.6 * iodist_inner lms + 0.4 * iodist_outer lms

def mid_eye_x (lms : List SimpleLandmark) : ℝ := ((p_eye_l lms).x + (p_eye_r lms).x) * 0.5
def mid_eye_y (lms : List SimpleLandmark) : ℝ := ((p_eye_l lms).y + (p_eye_r lms).y) * 0.5
def mid_mouth_x (lms : List SimpleLandmark) : ℝ := ((p_mouth_l lms).x + (p_mouth_r lms).x) * 0.5
def mid_mouth_y (lms : List SimpleLandmark) : ℝ := ((p_mouth_l lms).y + (p_mouth_r lms).y) * 0.5

def eye_mouth_dist (lms : List SimpleLandmark) : ℝ :=
  Real.sqrt ((mid_mouth_x lms - mid_eye_x lms) ^ 2 + (mid_mouth_y lms - mid_eye_y lms) ^ 2)

def oval_width (lms : List SimpleLandmark) : ℝ :=
  Real.sqrt (((p_oval_r lms).x - (p_oval_l lms).x) ^ 2
    + ((p_oval_r lms).y - (p_oval_l lms).y) ^ 2)

def nedist (lms : List SimpleLandmark) : ℝ :=
  Real.sqrt (((p_nose lms).x - (p_eye_l lms).x) ^ 2 + ((p_nose lms).y - (p_eye_l lms).y) ^ 2)

def face_height (lms : List SimpleLandmark) : ℝ :=
  Real.sqrt (((p_forehead lms).x - (p_chin lms).x) ^ 2
    + ((p_forehead lms).y - (p_chin lms).y) ^ 2)

def src_scale_px (lms : List SimpleLandmark) : ℝ :=
  0.55 * iodist_blend lms + 0.30 * oval_width lms + 0.15 * face_height lms

-- Step 4 of `compute_face_metrics`: bounding-box metrics.  Python's
-- `max`/`min` raise on an empty list; the `[] => 0` branch is junk, never
-- reached under the `455 ≤ lms.length` bound of the claims.
def listMax : List ℝ → ℝ
  | [] => 0
  | v :: vs => vs.foldl max v

def listMin : List ℝ → ℝ
  | [] => 0
  | v :: vs => vs.foldl min v

def x_coords (lms : List SimpleLandmark) : List ℝ := lms.map (fun lm => lm.x)

def raw_bw (lms : List SimpleLandmark) : ℝ := listMax (x_coords lms) - listMin (x_coords lms)

/-- `compute_face_metrics` from face_metrics.py: the returned `FaceMetrics`,
every field rounded exactly as in the source's return statement. -/
def computeFaceMetrics (lms : List SimpleLandmark) (matrix_data : Option (List ℝ))
    (score : ℝ) : FaceMetrics :=
  { pitch := roundTo 2 (poseFromMatrix matrix_data).1
    yaw := roundTo 2 (poseFromMatrix matrix_data).2.1
    roll := roundTo 2 (poseFromMatrix matrix_data).2.2
    center_x := roundTo 4 (p_eye_l lms).x
    center_y := roundTo 4 (p_eye_l lms).y
    face_width := roundTo 4 (raw_bw lms)
    face_scale := roundTo 6 (fscale lms)
    interocular_dist := roundTo 6 (iodist_outer lms)
    nose_x := roundTo 4 (p_nose lms).x
    nose_y := roundTo 4 (p_nose lms).y
    eye_l_x := roundTo 4 (p_eye_l lms).x
    eye_l_y := roundTo 4 (p_eye_l lms).y
    eye_r_x := roundTo 4 (p_eye_r lms).x
    eye_r_y := roundTo 4 (p_eye_r lms).y
    mouth_l_x := roundTo 4 (p_mouth_l lms).x
    mouth_l_y := roundTo 4 (p_mouth_l lms).y
    mouth_r_x := roundTo 4 (p_mouth_r lms).x
    mouth_r_y := roundTo 4 (p_mouth_r lms).y
    eye_li_x := roundTo 4 (p_eye_li lms).x
    eye_li_y := roundTo 4 (p_eye_li lms).y
    eye_ri_x := roundTo 4 (p_eye_ri lms).x
    eye_ri_y := roundTo 4 (p_eye_ri lms).y
    iodist_inner := roundTo 6 (iodist_inner lms)
    iodist_blend := roundTo 6 (iodist_blend lms)
    eye_mouth_dist := roundTo 6 (eye_mouth_dist lms)
    chin_x := roundTo 4 (p_chin lms).x
    chin_y := roundTo 4 (p_chin lms).y
    oval_l_x := roundTo 4 (p_oval_l lms).x
    oval_l_y := roundTo 4 (p_oval_l lms).y
    oval_r_x := roundTo 4 (p_oval_r lms).x
    oval_r_y := roundTo 4 (p_oval_r lms).y
    oval_width := roundTo 6 (oval_width lms)
    forehead_x := roundTo 4 (p_forehead lms).x
    forehead_y := roundTo 4 (p_forehead lms).y
    face_height := roundTo 6 (face_height lms)
    src_scale_px := roundTo 6 (src_scale_px lms)
    nose_eye_dist := roundTo 6 (nedist lms)
    landmark_confidence := roundTo 3 (landmark_confidence lms score)
    score := roundTo 3 score }

/-- Body of the list comprehension in `build_mirrored_landmarks`
(analyze-faces.py): flip the x coordinate, keep everything else. -/
def flipLandmark (lm : SimpleLandmark) : SimpleLandmark := { lm with x := 1 - lm.x }

/-- Python's simultaneous swap `m[l], m[r] = m[r], m[l]`: both reads happen
before either write. -/
def swapAt (left_idx right_idx : ℕ) (m : List SimpleLandmark) : List SimpleLandmark :=
  (m.set left_idx (m.getD right_idx default)).set right_idx (m.getD left_idx default)

/-- `build_mirrored_landmarks` from analyze-faces.py: flip every landmark
across x, then swap the four left/right semantic pairs. -/
def build_mirrored_landmarks (landmarks : List SimpleLandmark) : List SimpleLandmark :=
  let mirrored := landmarks.map flipLandmark
  swapAt OVAL_L OVAL_R
    (swapAt MOUTH_L_CORNER MOUTH_R_CORNER
      (swapAt EYE_L_INNER EYE_R_INNER
        (swapAt EYE_L_OUTER EYE_R_OUTER mirrored)))

/-- `build_mirrored_metrics` from analyze-faces.py: recompute geometry from
the mirrored landmarks (no transform matrix), then override the pose fields. -/
def build_mirrored_metrics (original : FaceMetrics)
    (mirrored_landmarks : List SimpleLandmark) : FaceMetrics :=
  let mirrored := computeFaceMetrics mirrored_landmarks none original.score
  { mirrored with
      pitch := original.pitch
      yaw := roundTo 2 (-original.yaw)
      roll := roundTo 2 (-original.roll) }

end

-- ### Byte-level XMP writing (xmp_io.py), computable.

/-- The bytes of `b"http://ns.adobe.com/xap/1.0/\0"` (29 bytes). -/
def xmpHeaderBytes : List ℕ :=
  [104, 116, 116, 112, 58, 47, 47, 110, 115, 46, 97, 100, 111, 98, 101, 46,
   99, 111, 109, 47, 120, 97, 112, 47, 49, 46, 48, 47, 0]

/-- The JPEG start-of-image marker `b"\xff\xd8"`. -/
def soiBytes : List ℕ := [255, 216]

/-- Python `int.to_bytes(2, "big")`: two big-endian bytes, or `none` for the
`OverflowError` raised when the value does not fit. -/
def toBytesBE2 (n : ℕ) : Option (List ℕ) :=
  if n < 65536 then some [n / 256, n % 256] else none

/-- `inject_xmp` from xmp_io.py.  Result: `(returned bool, file bytes after
the call)`.  The `OverflowError` from `to_bytes` lands in the source's
`except` branch (returns `False`, no write); a file that does not start with
the SOI marker also returns `False` without writing. -/
def inject_xmp (data xmp_packet : List ℕ) : Bool × List ℕ :=
  let seg_len := 2 + xmpHeaderBytes.length + xmp_packet.length
  match toBytesBE2 seg_len with
  | none => (false, data)
  | some len_bytes =>
    if data.take 2 = soiBytes then
      (true, data.take 2 ++ ([255, 225] ++ len_bytes) ++ xmpHeaderBytes
        ++ xmp_packet ++ data.drop 2)
    else
      (false, data)

/-- `append_xmp_payload` from xmp_io.py: append the header marker and the
packet to the file (filesystem write failures are outside the model). -/
def append_xmp_payload (data xmp_packet : List ℕ) : Bool × List ℕ :=
  (true, data ++ xmpHeaderBytes ++ xmp_packet)

/-- Python `str.lower()` on the path suffix, character by character
(modelled on `List Char` because suffixes are plain ASCII here). -/
def lowerChars (s : List Char) : List Char := s.map Char.toLower

/-- `write_xmp_to_source` from xmp_io.py: the file bytes after the call,
given the path suffix (as its character list), the original file bytes and
the UTF-8 encoded XMP packet. -/
def write_xmp_to_source (suffix : List Char) (data xmp_packet : List ℕ) : List ℕ :=
  if lowerChars suffix ∈ [['.', 'j', 'p', 'g'], ['.', 'j', 'p', 'e', 'g']] then
    match inject_xmp data xmp_packet with
    | (true, new_data) => new_data
    | (false, unchanged) => (append_xmp_payload unchanged xmp_packet).2
  else
    (append_xmp_payload data xmp_packet).2

-- ### Spec-side definitions (stated from the spec's words, for comparison).

noncomputable section

/-- Planar (x, y) Euclidean distance between two landmarks, as the spec
describes the distance measurements. -/
def planarDist (p q : SimpleLandmark) : ℝ :=
  Real.sqrt ((p.x - q.x) ^ 2 + (p.y - q.y) ^ 2)

/-- The left/right index pairing the mirroring swap realizes: each of the
four semantic pairs is exchanged, every other index is fixed. -/
def mirrorIndex (i : ℕ) : ℕ :=
  if i = EYE_L_OUTER then EYE_R_OUTER
  else if i = EYE_R_OUTER then EYE_L_OUTER
  else if i = EYE_L_INNER then EYE_R_INNER
  else if i = EYE_R_INNER then EYE_L_INNER
  else if i = MOUTH_L_CORNER then MOUTH_R_CORNER
  else if i = MOUTH_R_CORNER then MOUTH_L_CORNER
  else if i = OVAL_L then OVAL_R
  else if i = OVAL_R then OVAL_L
  else i

end

-- ### Helper lemmas: the rounding function.

theorem pyRound_intCast (k : ℤ) : pyRound (k : ℝ) = k := by
  unfold pyRound
  rw [Int.fract_intCast]
  norm_num

theorem pyRound_nonneg {t : ℝ} (h : 0 ≤ t) : 0 ≤ pyRound t := by
  unfold pyRound
  split
  · have := Int.floor_nonneg.mpr h; omega
  · exact Int.floor_nonneg.mpr h

theorem pyRound_le_of_le_int {t : ℝ} {N : ℤ} (h : t ≤ (N : ℝ)) : pyRound t ≤ N := by
  unfold pyRound
  have hfl : ⌊t⌋ ≤ N := by simpa using Int.floor_le_floor h
  split
  · rename_i hcond
    have hfr : Int.fract t ≠ 0 := by
      rcases hcond with h1 | h2
      · intro h0; rw [h0] at h1; norm_num at h1
      · intro h0; rw [h0] at h2; norm_num at h2
    rcases lt_or_eq_of_le hfl with hlt | heq
    · omega
    · exfalso
      have hNt : (N : ℝ) ≤ t := by rw [← heq]; exact Int.floor_le t
      have ht : t = (N : ℝ) := le_antisymm h hNt
      rw [ht] at hfr
      exact hfr (Int.fract_intCast N)
  · exact hfl

theorem abs_pyRound_sub_le (t : ℝ) : |(pyRound t : ℝ) - t| ≤ 1 / 2 := by
  unfold pyRound
  have hfr0 := Int.fract_nonneg t
  have hfr1 := Int.fract_lt_one t
  have hdef : Int.fract t = t - ⌊t⌋ := rfl
  split
  · rename_i hcond
    have hge : (1 : ℝ) / 2 ≤ Int.fract t := by
      rcases hcond with h1 | h2
      · linarith
      · linarith [h2.1.ge]
    rw [abs_le]
    push_cast
    constructor <;> linarith [hdef]
  · rename_i hcond
    push_neg at hcond
    have hle : Int.fract t ≤ 1 / 2 := hcond.1
    rw [abs_le]
    constructor <;> linarith [hdef]

theorem roundTo_nonneg {x : ℝ} (n : ℕ) (h : 0 ≤ x) : 0 ≤ roundTo n x := by
  unfold roundTo
  have h1 : (0 : ℝ) ≤ (pyRound (x * 10 ^ n) : ℝ) := by
    exact_mod_cast pyRound_nonneg (by positivity)
  positivity

theorem roundTo_le_one {x : ℝ} (n : ℕ) (h : x ≤ 1) : roundTo n x ≤ 1 := by
  unfold roundTo
  have hpow : (0 : ℝ) < 10 ^ n := by positivity
  rw [div_le_one hpow]
  have h1 : pyRound (x * 10 ^ n) ≤ ((10 : ℤ) ^ n) := by
    apply pyRound_le_of_le_int
    push_cast
    nlinarith
  calc (pyRound (x * 10 ^ n) : ℝ) ≤ ((10 : ℤ) ^ n : ℝ) := by exact_mod_cast h1
    _ = 10 ^ n := by push_cast; ring

theorem abs_roundTo_sub_le (n : ℕ) (x : ℝ) : |roundTo n x - x| ≤ 1 / 2 / 10 ^ n := by
  unfold roundTo
  have hpow : (0 : ℝ) < 10 ^ n := by positivity
  have h1 := abs_pyRound_sub_le (x * 10 ^ n)
  have h2 : (pyRound (x * 10 ^ n) : ℝ) / 10 ^ n - x
      = ((pyRound (x * 10 ^ n) : ℝ) - x * 10 ^ n) / 10 ^ n := by
    field_simp
    ring
  rw [h2, abs_div, abs_of_pos hpow]
  gcongr

theorem roundTo_int_div (n : ℕ) (k : ℤ) : roundTo n ((k : ℝ) / 10 ^ n) = (k : ℝ) / 10 ^ n := by
  unfold roundTo
  have hpow : (10 : ℝ) ^ n ≠ 0 := by positivity
  rw [div_mul_cancel₀ _ hpow, pyRound_intCast]

theorem roundTo_zero (n : ℕ) : roundTo n 0 = 0 := by
  have h := roundTo_int_div n 0
  simpa using h

-- ### Helper lemmas: lists.

theorem getD_mem {α : Type} [Inhabited α] {l : List α} {i : ℕ} (h : i < l.length)
    (d : α) : l.getD i d ∈ l := by
  rw [List.getD_eq_getElem l d h]
  exact List.getElem_mem h

theorem getD_replicate {α : Type} {a d : α} {n i : ℕ} (h : i < n) :
    (List.replicate n a).getD i d = a := by
  rw [List.getD_eq_getElem _ d (by simpa using h)]
  exact List.getElem_replicate ..

theorem getD_map_of_lt {f : SimpleLandmark → SimpleLandmark} {l : List SimpleLandmark}
    {i : ℕ} (h : i < l.length) (d : SimpleLandmark) :
    (l.map f).getD i d = f (l.getD i d) := by
  rw [List.getD_eq_getElem _ d (by simpa using h), List.getD_eq_getElem l d h]
  exact List.getElem_map ..

theorem le_foldl_max (x : ℝ) (xs : List ℝ) : x ≤ xs.foldl max x := by
  induction xs generalizing x with
  | nil => exact le_refl x
  | cons y ys ih => exact le_trans (le_max_left x y) (ih (max x y))

theorem foldl_min_le (x : ℝ) (xs : List ℝ) : xs.foldl min x ≤ x := by
  induction xs generalizing x with
  | nil => exact le_refl x
  | cons y ys ih => exact le_trans (ih (min x y)) (min_le_left x y)

theorem listMin_le_listMax {l : List ℝ} (h : l ≠ []) : listMin l ≤ listMax l := by
  cases l with
  | nil => exact absurd rfl h
  | cons v vs =>
    unfold listMin listMax
    exact le_trans (foldl_min_le v vs) (le_foldl_max v vs)

theorem swapAt_length (li ri : ℕ) (m : List SimpleLandmark) :
    (swapAt li ri m).length = m.length := by
  simp [swapAt]

theorem swapAt_getD {li ri : ℕ} {m : List SimpleLandmark}
    (hl : li < m.length) (hr : ri < m.length) (hne : li ≠ ri) (i : ℕ) :
    (swapAt li ri m).getD i default =
      if i = li then m.getD ri default
      else if i = ri then m.getD li default
      else m.getD i default := by
  unfold swapAt
  simp only [List.getD_eq_getD_get?, List.get?_eq_getElem?]
  by_cases hir : i = ri
  · rw [hir, List.getElem?_set_eq_of_lt _ (by simpa using hr),
      if_neg (Ne.symm hne), if_pos rfl]
    simp
  · rw [List.getElem?_set_ne (fun h => hir h.symm)]
    by_cases hil : i = li
    · rw [hil, List.getElem?_set_eq_of_lt _ hl, if_pos rfl]
      simp
    · rw [List.getElem?_set_ne (fun h => hil h.symm), if_neg hil, if_neg hir]

-- ### Helper lemmas: mirroring.

theorem flipLandmark_flipLandmark (lm : SimpleLandmark) :
    flipLandmark (flipLandmark lm) = lm := by
  cases lm
  simp [flipLandmark]

theorem mirrorIndex_lt {i n : ℕ} (hn : 455 ≤ n) (hi : i < n) : mirrorIndex i < n := by
  unfold mirrorIndex EYE_L_OUTER EYE_R_OUTER EYE_L_INNER EYE_R_INNER
    MOUTH_L_CORNER MOUTH_R_CORNER OVAL_L OVAL_R
  split_ifs <;> omega

theorem mirrorIndex_fixed {i : ℕ} (h33 : i ≠ 33) (h263 : i ≠ 263) (h133 : i ≠ 133)
    (h362 : i ≠ 362) (h61 : i ≠ 61) (h291 : i ≠ 291) (h234 : i ≠ 234)
    (h454 : i ≠ 454) : mirrorIndex i = i := by
  unfold mirrorIndex EYE_L_OUTER EYE_R_OUTER EYE_L_INNER EYE_R_INNER
    MOUTH_L_CORNER MOUTH_R_CORNER OVAL_L OVAL_R
  rw [if_neg h33, if_neg h263, if_neg h133, if_neg h362, if_neg h61, if_neg h291,
    if_neg h234, if_neg h454]

theorem mirrorIndex_mirrorIndex (i : ℕ) : mirrorIndex (mirrorIndex i) = i := by
  by_cases h33 : i = 33
  · subst h33; decide
  by_cases h263 : i = 263
  · subst h263; decide
  by_cases h133 : i = 133
  · subst h133; decide
  by_cases h362 : i = 362
  · subst h362; decide
  by_cases h61 : i = 61
  · subst h61; decide
  by_cases h291 : i = 291
  · subst h291; decide
  by_cases h234 : i = 234
  · subst h234; decide
  by_cases h454 : i = 454
  · subst h454; decide
  have hfix := mirrorIndex_fixed h33 h263 h133 h362 h61 h291 h234 h454
  rw [hfix, hfix]

theorem build_mirrored_landmarks_length (lms : List SimpleLandmark) :
    (build_mirrored_landmarks lms).length = lms.length := by
  unfold build_mirrored_landmarks
  rw [swapAt_length, swapAt_length, swapAt_length, swapAt_length, List.length_map]

theorem build_mirrored_landmarks_getD {lms : List SimpleLandmark}
    (hlen : 455 ≤ lms.length) {i : ℕ} (hi : i < lms.length) :
    (build_mirrored_landmarks lms).getD i default
      = flipLandmark (lms.getD (mirrorIndex i) default) := by
  have hbml : build_mirrored_landmarks lms
      = swapAt OVAL_L OVAL_R (swapAt MOUTH_L_CORNER MOUTH_R_CORNER
          (swapAt EYE_L_INNER EYE_R_INNER
            (swapAt EYE_L_OUTER EYE_R_OUTER (lms.map flipLandmark)))) := rfl
  rw [hbml]
  set L0 := lms.map flipLandmark with hL0
  set L1 := swapAt EYE_L_OUTER EYE_R_OUTER L0 with hL1
  set L2 := swapAt EYE_L_INNER EYE_R_INNER L1 with hL2
  set L3 := swapAt MOUTH_L_CORNER MOUTH_R_CORNER L2 with hL3
  have len0 : L0.length = lms.length := by rw [hL0, List.length_map]
  have len1 : L1.length = lms.length := by rw [hL1, swapAt_length, len0]
  have len2 : L2.length = lms.length := by rw [hL2, swapAt_length, len1]
  have len3 : L3.length = lms.length := by rw [hL3, swapAt_length, len2]
  have bEL0 : EYE_L_OUTER < L0.length := by rw [len0]; unfold EYE_L_OUTER; omega
  have bER0 : EYE_R_OUTER < L0.length := by rw [len0]; unfold EYE_R_OUTER; omega
  have bELi1 : EYE_L_INNER < L1.length := by rw [len1]; unfold EYE_L_INNER; omega
  have bERi1 : EYE_R_INNER < L1.length := by rw [len1]; unfold EYE_R_INNER; omega
  have bML2 : MOUTH_L_CORNER < L2.length := by rw [len2]; unfold MOUTH_L_CORNER; omega
  have bMR2 : MOUTH_R_CORNER < L2.length := by rw [len2]; unfold MOUTH_R_CORNER; omega
  have bOL3 : OVAL_L < L3.length := by rw [len3]; unfold OVAL_L; omega
  have bOR3 : OVAL_R < L3.length := by rw [len3]; unfold OVAL_R; omega
  have hmap : ∀ j, j < lms.length → L0.getD j default = flipLandmark (lms.getD j default) := by
    intro j hj
    rw [hL0]
    exact getD_map_of_lt hj default
  have hv1 : ∀ j, j < lms.length → j ≠ EYE_L_OUTER → j ≠ EYE_R_OUTER →
      L1.getD j default = flipLandmark (lms.getD j default) := by
    intro j hj hA hB
    rw [hL1, swapAt_getD bEL0 bER0 (by decide) j, if_neg hA, if_neg hB]
    exact hmap j hj
  have hv2 : ∀ j, j < lms.length → j ≠ EYE_L_OUTER → j ≠ EYE_R_OUTER →
      j ≠ EYE_L_INNER → j ≠ EYE_R_INNER →
      L2.getD j default = flipLandmark (lms.getD j default) := by
    intro j hj hA hB hC hD
    rw [hL2, swapAt_getD bELi1 bERi1 (by decide) j, if_neg hC, if_neg hD]
    exact hv1 j hj hA hB
  have hv3 : ∀ j, j < lms.length → j ≠ EYE_L_OUTER → j ≠ EYE_R_OUTER →
      j ≠ EYE_L_INNER → j ≠ EYE_R_INNER → j ≠ MOUTH_L_CORNER → j ≠ MOUTH_R_CORNER →
      L3.getD j default = flipLandmark (lms.getD j default) := by
    intro j hj hA hB hC hD hE hF
    rw [hL3, swapAt_getD bML2 bMR2 (by decide) j, if_neg hE, if_neg hF]
    exact hv2 j hj hA hB hC hD
  rw [swapAt_getD bOL3 bOR3 (by decide) i]
  by_cases c234 : i = OVAL_L
  · rw [if_pos c234, c234, (show mirrorIndex OVAL_L = OVAL_R by decide)]
    exact hv3 OVAL_R (by unfold OVAL_R; omega) (by decide) (by decide) (by decide)
      (by decide) (by decide) (by decide)
  rw [if_neg c234]
  by_cases c454 : i = OVAL_R
  · rw [if_pos c454, c454, (show mirrorIndex OVAL_R = OVAL_L by decide)]
    exact hv3 OVAL_L (by unfold OVAL_L; omega) (by decide) (by decide) (by decide)
      (by decide) (by decide) (by decide)
  rw [if_neg c454]
  by_cases c61 : i = MOUTH_L_CORNER
  · rw [c61, hL3, swapAt_getD bML2 bMR2 (by decide) MOUTH_L_CORNER, if_pos rfl,
      (show mirrorIndex MOUTH_L_CORNER = MOUTH_R_CORNER by decide)]
    exact hv2 MOUTH_R_CORNER (by unfold MOUTH_R_CORNER; omega) (by decide) (by decide)
      (by decide) (by decide)
  by_cases c291 : i = MOUTH_R_CORNER
  · rw [c291, hL3, swapAt_getD bML2 bMR2 (by decide) MOUTH_R_CORNER,
      if_neg (by decide), if_pos rfl,
      (show mirrorIndex MOUTH_R_CORNER = MOUTH_L_CORNER by decide)]
    exact hv2 MOUTH_L_CORNER (by unfold MOUTH_L_CORNER; omega) (by decide) (by decide)
      (by decide) (by decide)
  rw [hL3, swapAt_getD bML2 bMR2 (by decide) i, if_neg c61, if_neg c291]
  by_cases c133 : i = EYE_L_INNER
  · rw [c133, hL2, swapAt_getD bELi1 bERi1 (by decide) EYE_L_INNER, if_pos rfl,
      (show mirrorIndex EYE_L_INNER = EYE_R_INNER by decide)]
    exact hv1 EYE_R_INNER (by unfold EYE_R_INNER; omega) (by decide) (by decide)
  by_cases c362 : i = EYE_R_INNER
  · rw [c362, hL2, swapAt_getD bELi1 bERi1 (by decide) EYE_R_INNER,
      if_neg (by decide), if_pos rfl,
      (show mirrorIndex EYE_R_INNER = EYE_L_INNER by decide)]
    exact hv1 EYE_L_INNER (by unfold EYE_L_INNER; omega) (by decide) (by decide)
  rw [hL2, swapAt_getD bELi1 bERi1 (by decide) i, if_neg c133, if_neg c362]
  by_cases c33 : i = EYE_L_OUTER
  · rw [c33, hL1, swapAt_getD bEL0 bER0 (by decide) EYE_L_OUTER, if_pos rfl,
      (show mirrorIndex EYE_L_OUTER = EYE_R_OUTER by decide)]
    exact hmap EYE_R_OUTER (by unfold EYE_R_OUTER; omega)
  by_cases c263 : i = EYE_R_OUTER
  · rw [c263, hL1, swapAt_getD bEL0 bER0 (by decide) EYE_R_OUTER,
      if_neg (by decide), if_pos rfl,
      (show mirrorIndex EYE_R_OUTER = EYE_L_OUTER by decide)]
    exact hmap EYE_L_OUTER (by unfold EYE_L_OUTER; omega)
  rw [hL1, swapAt_getD bEL0 bER0 (by decide) i, if_neg c33, if_neg c263]
  rw [mirrorIndex_fixed (c33 : i ≠ 33) (c263 : i ≠ 263) (c133 : i ≠ 133)
    (c362 : i ≠ 362) (c61 : i ≠ 61) (c291 : i ≠ 291) (c234 : i ≠ 234)
    (c454 : i ≠ 454)]
  exact hmap i hi

-- ### Helper lemmas: atan2 and the pose.

theorem atan2_zero_one : atan2 0 1 = 0 := by
  unfold atan2
  have h : (⟨1, 0⟩ : ℂ) = 1 := by
    apply Complex.ext <;> simp
  rw [h, Complex.arg_one]

theorem poseFromMatrix_none : poseFromMatrix none = (0, 0, 0) := rfl

theorem poseFromMatrix_nil : poseFromMatrix (some []) = (0, 0, 0) := by
  simp [poseFromMatrix]

-- ### C1

/-- C1: `get_euler_angles` computes `sy = sqrt(R[0][0]^2 + R[1][0]^2)`; when
`sy ≥ 1e-6` it returns `(atan2 (R[2][1]) (R[2][2]), atan2 (-R[2][0]) sy,
atan2 (R[1][0]) (R[0][0]))`, each converted to degrees; when `sy < 1e-6` it
returns `(atan2 (-R[1][2]) (R[1][1]), atan2 (-R[2][0]) sy, 0)` (pitch and
yaw in degrees, roll exactly 0); and `compute_face_metrics` with
`matrix_data` absent (`None` or empty) yields pitch = yaw = roll = 0. -/
theorem C1_euler_decomposition (rmat : Fin 3 → Fin 3 → ℝ)
    (lms : List SimpleLandmark) (score : ℝ) :
    ((1e-6 : ℝ) ≤ Real.sqrt (rmat 0 0 ^ 2 + rmat 1 0 ^ 2) →
      get_euler_angles rmat
        = (degrees (atan2 (rmat 2 1) (rmat 2 2)),
           degrees (atan2 (-rmat 2 0) (Real.sqrt (rmat 0 0 ^ 2 + rmat 1 0 ^ 2))),
           degrees (atan2 (rmat 1 0) (rmat 0 0))))
    ∧ (Real.sqrt (rmat 0 0 ^ 2 + rmat 1 0 ^ 2) < 1e-6 →
      get_euler_angles rmat
        = (degrees (atan2 (-rmat 1 2) (rmat 1 1)),
           degrees (atan2 (-rmat 2 0) (Real.sqrt (rmat 0 0 ^ 2 + rmat 1 0 ^ 2))),
           0))
    ∧ (computeFaceMetrics lms none score).pitch = 0
    ∧ (computeFaceMetrics lms none score).yaw = 0
    ∧ (computeFaceMetrics lms none score).roll = 0
    ∧ (computeFaceMetrics lms (some []) score).pitch = 0
    ∧ (computeFaceMetrics lms (some []) score).yaw = 0
    ∧ (computeFaceMetrics lms (some []) score).roll = 0 := by
  have hsq : rmat 0 0 * rmat 0 0 + rmat 1 0 * rmat 1 0
      = rmat 0 0 ^ 2 + rmat 1 0 ^ 2 := by ring
  refine ⟨?_, ?_, ?_, ?_, ?_, ?_, ?_, ?_⟩
  · intro h
    unfold get_euler_angles
    rw [hsq, if_neg (not_lt.mpr h)]
  · intro h
    unfold get_euler_angles
    rw [hsq, if_pos h]
  · show roundTo 2 (poseFromMatrix none).1 = 0
    rw [poseFromMatrix_none]; exact roundTo_zero 2
  · show roundTo 2 (poseFromMatrix none).2.1 = 0
    rw [poseFromMatrix_none]; exact roundTo_zero 2
  · show roundTo 2 (poseFromMatrix none).2.2 = 0
    rw [poseFromMatrix_none]; exact roundTo_zero 2
  · show roundTo 2 (poseFromMatrix (some [])).1 = 0
    rw [poseFromMatrix_nil]; exact roundTo_zero 2
  · show roundTo 2 (poseFromMatrix (some [])).2.1 = 0
    rw [poseFromMatrix_nil]; exact roundTo_zero 2
  · show roundTo 2 (poseFromMatrix (some [])).2.2 = 0
    rw [poseFromMatrix_nil]; exact roundTo_zero 2

/-- The 3x3 identity, as a rotation-matrix input. -/
noncomputable def Rident : Fin 3 → Fin 3 → ℝ := fun i j => if i = j then 1 else 0

/-- The 3x3 all-zero matrix (a singular input for the gimbal-lock branch). -/
noncomputable def Rzero : Fin 3 → Fin 3 → ℝ := fun _ _ => 0

theorem C1_euler_decomposition_witness :
    get_euler_angles Rident
      = (degrees (atan2 (Rident 2 1) (Rident 2 2)),
         degrees (atan2 (-Rident 2 0) (Real.sqrt (Rident 0 0 ^ 2 + Rident 1 0 ^ 2))),
         degrees (atan2 (Rident 1 0) (Rident 0 0)))
    ∧ get_euler_angles Rzero
      = (degrees (atan2 (-Rzero 1 2) (Rzero 1 1)),
         degrees (atan2 (-Rzero 2 0) (Real.sqrt (Rzero 0 0 ^ 2 + Rzero 1 0 ^ 2))),
         0) := by
  constructor
  · apply (C1_euler_decomposition Rident [] 0).1
    have h00 : Rident 0 0 = 1 := by simp [Rident]
    have h10 : Rident 1 0 = 0 := by simp [Rident]
    rw [h00, h10, show (1 : ℝ) ^ 2 + (0 : ℝ) ^ 2 = 1 by norm_num, Real.sqrt_one]
    norm_num
  · apply (C1_euler_decomposition Rzero [] 0).2.1
    have h00 : Rzero 0 0 = 0 := rfl
    have h10 : Rzero 1 0 = 0 := rfl
    rw [h00, h10, show (0 : ℝ) ^ 2 + (0 : ℝ) ^ 2 = 0 by norm_num, Real.sqrt_zero]
    norm_num

-- ### C8

/-- The 4x4 identity transform, as the 16 floats decoded from
`struct.unpack("<16f", matrix_data)` (row-major). -/
noncomputable def identityMatrixFloats : List ℝ :=
  [1, 0, 0, 0, 0, 1, 0, 0, 0, 0, 1, 0, 0, 0, 0, 1]

/-- C8: for the identity transformation matrix, `compute_face_metrics`
returns pitch = 0, yaw = 0 and roll = 0. -/
theorem C8_identity_pose (lms : List SimpleLandmark) (score : ℝ) :
    (computeFaceMetrics lms (some identityMatrixFloats) score).pitch = 0
    ∧ (computeFaceMetrics lms (some identityMatrixFloats) score).yaw = 0
    ∧ (computeFaceMetrics lms (some identityMatrixFloats) score).roll = 0 := by
  have hpose : poseFromMatrix (some identityMatrixFloats) = (0, 0, 0) := by
    have h1 : poseFromMatrix (some identityMatrixFloats)
        = get_euler_angles (rmatOf identityMatrixFloats) := by
      simp [poseFromMatrix, identityMatrixFloats]
    rw [h1]
    have h00 : rmatOf identityMatrixFloats 0 0 = 1 := rfl
    have h10 : rmatOf identityMatrixFloats 1 0 = 0 := rfl
    have h21 : rmatOf identityMatrixFloats 2 1 = 0 := rfl
    have h22 : rmatOf identityMatrixFloats 2 2 = 1 := rfl
    have h20 : rmatOf identityMatrixFloats 2 0 = 0 := rfl
    unfold get_euler_angles
    rw [h00, h10, h21, h22, h20,
      show (1 : ℝ) * 1 + 0 * 0 = 1 by ring, Real.sqrt_one,
      if_neg (by norm_num), neg_zero, atan2_zero_one]
    simp [degrees]
  refine ⟨?_, ?_, ?_⟩
  · show roundTo 2 (poseFromMatrix (some identityMatrixFloats)).1 = 0
    rw [hpose]; exact roundTo_zero 2
  · show roundTo 2 (poseFromMatrix (some identityMatrixFloats)).2.1 = 0
    rw [hpose]; exact roundTo_zero 2
  · show roundTo 2 (poseFromMatrix (some identityMatrixFloats)).2.2 = 0
    rw [hpose]; exact roundTo_zero 2

-- ### Helper lemmas: XMP byte splicing.

theorem xmpHeaderBytes_length : xmpHeaderBytes.length = 29 := rfl

theorem inject_xmp_success {data packet : List ℕ} (ht : data.take 2 = soiBytes)
    (hlen : 2 + 29 + packet.length < 65536) :
    inject_xmp data packet
      = (true, data.take 2
          ++ ([255, 225] ++ [(2 + 29 + packet.length) / 256,
              (2 + 29 + packet.length) % 256])
          ++ xmpHeaderBytes ++ packet ++ data.drop 2) := by
  simp only [inject_xmp, toBytesBE2, xmpHeaderBytes_length]
  rw [if_pos hlen]
  simp [ht]

theorem inject_xmp_not_soi {data packet : List ℕ} (ht : data.take 2 ≠ soiBytes) :
    inject_xmp data packet = (false, data) := by
  simp only [inject_xmp, toBytesBE2, xmpHeaderBytes_length]
  split <;> simp [ht]

theorem inject_xmp_overflow {data packet : List ℕ}
    (hlen : ¬2 + 29 + packet.length < 65536) :
    inject_xmp data packet = (false, data) := by
  simp only [inject_xmp, toBytesBE2, xmpHeaderBytes_length]
  rw [if_neg hlen]

-- ### C9

/-- C9 (amended): `write_xmp_to_source` preserves every original image byte.
For a `.jpg`/`.jpeg` file whose bytes begin with `FF D8`, provided the APP1
segment length `2 + 29 + len(packet)` fits in two bytes (< 65536), the
resulting bytes are the 2-byte SOI, the APP1 marker `FF E1` with that
big-endian length, the 29-byte XMP header, the packet, then the entire
remainder of the original bytes; in every other case -- a `.jpg`/`.jpeg`
file not starting with `FF D8`, a `.jpg`/`.jpeg` file with `FF D8` whose
packet oversizes the two-byte segment length (so `to_bytes` raises and
`inject_xmp` fails), and every non-JPEG file -- the result is the original
bytes unchanged followed by the header marker and the packet as a
trailer. -/
theorem C9_write_xmp_bytes (suffix : List Char) (data xmp_packet : List ℕ) :
    (lowerChars suffix ∈ [['.', 'j', 'p', 'g'], ['.', 'j', 'p', 'e', 'g']] →
      data.take 2 = soiBytes →
      2 + 29 + xmp_packet.length < 65536 →
      write_xmp_to_source suffix data xmp_packet
        = soiBytes
          ++ ([255, 225] ++ [(2 + 29 + xmp_packet.length) / 256,
              (2 + 29 + xmp_packet.length) % 256])
          ++ xmpHeaderBytes ++ xmp_packet ++ data.drop 2)
    ∧ (lowerChars suffix ∈ [['.', 'j', 'p', 'g'], ['.', 'j', 'p', 'e', 'g']] →
      data.take 2 ≠ soiBytes →
      write_xmp_to_source suffix data xmp_packet
        = data ++ xmpHeaderBytes ++ xmp_packet)
    ∧ (lowerChars suffix ∈ [['.', 'j', 'p', 'g'], ['.', 'j', 'p', 'e', 'g']] →
      data.take 2 = soiBytes →
      ¬2 + 29 + xmp_packet.length < 65536 →
      write_xmp_to_source suffix data xmp_packet
        = data ++ xmpHeaderBytes ++ xmp_packet)
    ∧ (lowerChars suffix ∉ [['.', 'j', 'p', 'g'], ['.', 'j', 'p', 'e', 'g']] →
      write_xmp_to_source suffix data xmp_packet
        = data ++ xmpHeaderBytes ++ xmp_packet) := by
  refine ⟨?_, ?_, ?_, ?_⟩
  · intro hs ht hlen
    unfold write_xmp_to_source
    rw [if_pos hs, inject_xmp_success ht hlen, ht]
  · intro hs ht
    unfold write_xmp_to_source
    rw [if_pos hs, inject_xmp_not_soi ht]
    rfl
  · intro hs _ hlen
    unfold write_xmp_to_source
    rw [if_pos hs, inject_xmp_overflow hlen]
    rfl
  · intro hs
    unfold write_xmp_to_source
    rw [if_neg hs]
    rfl

/-- An XMP packet so large that the APP1 segment length overflows two bytes
(`2 + 29 + 65505 = 65536`). -/
def bigPacket : List ℕ := List.replicate 65505 0

theorem bigPacket_length : bigPacket.length = 65505 := List.length_replicate ..

theorem C9_counterexample :
    write_xmp_to_source ['.', 'j', 'p', 'g'] soiBytes bigPacket
      = soiBytes ++ xmpHeaderBytes ++ bigPacket
    ∧ (write_xmp_to_source ['.', 'j', 'p', 'g'] soiBytes bigPacket).take 4
      ≠ [255, 216, 255, 225] := by
  have hbig : bigPacket.length = 65505 := List.length_replicate ..
  have hfail : inject_xmp soiBytes bigPacket = (false, soiBytes) := by
    apply inject_xmp_overflow
    rw [hbig]
    decide
  have hmain : write_xmp_to_source ['.', 'j', 'p', 'g'] soiBytes bigPacket
      = soiBytes ++ xmpHeaderBytes ++ bigPacket := by
    unfold write_xmp_to_source
    rw [if_pos (by decide), hfail]
    rfl
  refine ⟨hmain, ?_⟩
  rw [hmain]
  have htake : (soiBytes ++ xmpHeaderBytes ++ bigPacket).take 4
      = [255, 216, 104, 116] := by
    simp [soiBytes, xmpHeaderBytes]
  rw [htake]
  decide

theorem C9_write_xmp_bytes_witness :
    write_xmp_to_source ['.', 'j', 'p', 'g'] [255, 216, 7] [65]
      = soiBytes
        ++ ([255, 225] ++ [(2 + 29 + ([65] : List ℕ).length) / 256,
            (2 + 29 + ([65] : List ℕ).length) % 256])
        ++ xmpHeaderBytes ++ [65] ++ ([255, 216, 7] : List ℕ).drop 2
    ∧ write_xmp_to_source ['.', 'j', 'p', 'g'] [0, 1] [65]
      = [0, 1] ++ xmpHeaderBytes ++ [65]
    ∧ write_xmp_to_source ['.', 'j', 'p', 'g'] [255, 216, 9] bigPacket
      = [255, 216, 9] ++ xmpHeaderBytes ++ bigPacket
    ∧ write_xmp_to_source ['.', 'p', 'n', 'g'] [0, 1] [65]
      = [0, 1] ++ xmpHeaderBytes ++ [65] :=
  ⟨(C9_write_xmp_bytes ['.', 'j', 'p', 'g'] [255, 216, 7] [65]).1
      (by decide) (by decide) (by decide),
   (C9_write_xmp_bytes ['.', 'j', 'p', 'g'] [0, 1] [65]).2.1
      (by decide) (by decide),
   (C9_write_xmp_bytes ['.', 'j', 'p', 'g'] [255, 216, 9] bigPacket).2.2.1
      (by decide) (by decide) (by rw [bigPacket_length]; decide),
   (C9_write_xmp_bytes ['.', 'p', 'n', 'g'] [0, 1] [65]).2.2.2 (by decide)⟩

-- ### C10

/-- C10: `inject_xmp` is atomic on its error branch: when the file's first
two bytes are not the JPEG SOI marker `FF D8`, it returns `False` and the
file bytes are unchanged. -/
theorem C10_inject_xmp_atomic (data xmp_packet : List ℕ)
    (ht : data.take 2 ≠ soiBytes) :
    inject_xmp data xmp_packet = (false, data) :=
  inject_xmp_not_soi ht

theorem C10_inject_xmp_atomic_witness :
    ([0, 1] : List ℕ).take 2 ≠ soiBytes
    ∧ inject_xmp [0, 1] [] = (false, [0, 1]) :=
  ⟨by decide, C10_inject_xmp_atomic [0, 1] [] (by decide)⟩

-- ### More rounding facts and a sample landmark list for witnesses.

theorem roundTo_intCast (n : ℕ) (k : ℤ) : roundTo n (k : ℝ) = (k : ℝ) := by
  unfold roundTo
  rw [show (k : ℝ) * 10 ^ n = ((k * 10 ^ n : ℤ) : ℝ) by push_cast; ring,
    pyRound_intCast]
  push_cast
  have hpow : (10 : ℝ) ^ n ≠ 0 := by positivity
  field_simp

theorem roundTo_one (n : ℕ) : roundTo n 1 = 1 := by
  have h := roundTo_intCast n 1
  simpa using h

/-- A concrete landmark list of the required length: 455 copies of the
landmark `(x = 1/2, y = 1/2)` with `z`, `visibility`, `presence` left at
their dataclass defaults (0, 1, 1). -/
noncomputable def sampleLandmarks : List SimpleLandmark :=
  List.replicate 455 { x := 1 / 2, y := 1 / 2 }

theorem sampleLandmarks_length : sampleLandmarks.length = 455 :=
  List.length_replicate ..

theorem sampleLandmarks_getD {i : ℕ} (h : i < 455) :
    sampleLandmarks.getD i default = { x := 1 / 2, y := 1 / 2 } :=
  getD_replicate h

theorem list_eq_of_getD {l₁ l₂ : List SimpleLandmark} (hlen : l₁.length = l₂.length)
    (h : ∀ i, i < l₂.length → l₁.getD i default = l₂.getD i default) : l₁ = l₂ := by
  apply List.ext_getElem hlen
  intro i hi1 hi2
  have hgd := h i hi2
  rwa [List.getD_eq_getElem _ _ hi1, List.getD_eq_getElem _ _ hi2] at hgd

-- ### C4

/-- C4: mirroring is an involution: on every landmark list of at least 455
entries, applying `build_mirrored_landmarks` twice returns the original
list (every coordinate and confidence restored, every swapped pair back in
place). -/
theorem C4_mirroring_involution (lms : List SimpleLandmark)
    (hlen : 455 ≤ lms.length) :
    build_mirrored_landmarks (build_mirrored_landmarks lms) = lms := by
  have hlen1 : (build_mirrored_landmarks lms).length = lms.length :=
    build_mirrored_landmarks_length lms
  have hlen2 : (build_mirrored_landmarks (build_mirrored_landmarks lms)).length
      = lms.length := by
    rw [build_mirrored_landmarks_length, hlen1]
  refine list_eq_of_getD hlen2 ?_
  intro i h2
  have hA : 455 ≤ (build_mirrored_landmarks lms).length := by
    rw [hlen1]; exact hlen
  have hB : i < (build_mirrored_landmarks lms).length := by
    rw [hlen1]; exact h2
  rw [build_mirrored_landmarks_getD hA hB,
    build_mirrored_landmarks_getD hlen (mirrorIndex_lt hlen h2),
    mirrorIndex_mirrorIndex, flipLandmark_flipLandmark]

theorem C4_mirroring_involution_witness :
    455 ≤ sampleLandmarks.length
    ∧ build_mirrored_landmarks (build_mirrored_landmarks sampleLandmarks)
      = sampleLandmarks :=
  ⟨by rw [sampleLandmarks_length],
   C4_mirroring_involution sampleLandmarks (by rw [sampleLandmarks_length])⟩

-- ### C5

/-- C5: for every landmark list of at least 455 entries, the `src_scale_px`
value computed by `compute_face_metrics` before rounding is the fixed affine
combination `0.55*(0.6*inner + 0.4*outer) + 0.30*oval_width +
0.15*face_height` of planar distances between the named landmark indices
(inner eye corners 133/362, outer eye corners 33/263, jaw contour 234/454,
forehead 10 and chin tip 152), and the returned field is that value rounded
to 6 places. -/
theorem C5_src_scale_px_formula (lms : List SimpleLandmark)
    (matrix_data : Option (List ℝ)) (score : ℝ) (hlen : 455 ≤ lms.length) :
    src_scale_px lms
      = 0.55 * (0.6 * planarDist (lms.getD 362 default) (lms.getD 133 default)
          + 0.4 * planarDist (lms.getD 263 default) (lms.getD 33 default))
        + 0.30 * planarDist (lms.getD 454 default) (lms.getD 234 default)
        + 0.15 * planarDist (lms.getD 10 default) (lms.getD 152 default)
    ∧ (computeFaceMetrics lms matrix_data score).src_scale_px
      = roundTo 6 (src_scale_px lms) := by
  constructor
  · rfl
  · rfl

theorem C5_src_scale_px_formula_witness :
    455 ≤ sampleLandmarks.length
    ∧ src_scale_px sampleLandmarks
      = 0.55 * (0.6 * planarDist (sampleLandmarks.getD 362 default)
            (sampleLandmarks.getD 133 default)
          + 0.4 * planarDist (sampleLandmarks.getD 263 default)
            (sampleLandmarks.getD 33 default))
        + 0.30 * planarDist (sampleLandmarks.getD 454 default)
          (sampleLandmarks.getD 234 default)
        + 0.15 * planarDist (sampleLandmarks.getD 10 default)
          (sampleLandmarks.getD 152 default) :=
  ⟨by rw [sampleLandmarks_length],
   (C5_src_scale_px_formula sampleLandmarks none 0 (by rw [sampleLandmarks_length])).1⟩

-- ### C7

/-- C7: every float field of the `FaceMetrics` returned by
`compute_face_metrics` is the corresponding unrounded value rounded to that
field's fixed decimal precision (pitch/yaw/roll to 2; all coordinate fields
and `face_width` to 4; all distance fields to 6; `landmark_confidence` and
`score` to 3), and therefore each rounded output differs from its unrounded
input by at most half of 10 to the minus precision. -/
theorem C7_rounding_contract (lms : List SimpleLandmark)
    (matrix_data : Option (List ℝ)) (score : ℝ) :
    ((computeFaceMetrics lms matrix_data score).pitch = roundTo 2 ((poseFromMatrix matrix_data).1)
      ∧ |(computeFaceMetrics lms matrix_data score).pitch - ((poseFromMatrix matrix_data).1)| ≤ 1 / 2 / 10 ^ 2)
    ∧ ((computeFaceMetrics lms matrix_data score).yaw = roundTo 2 ((poseFromMatrix matrix_data).2.1)
      ∧ |(computeFaceMetrics lms matrix_data score).yaw - ((poseFromMatrix matrix_data).2.1)| ≤ 1 / 2 / 10 ^ 2)
    ∧ ((computeFaceMetrics lms matrix_data score).roll = roundTo 2 ((poseFromMatrix matrix_data).2.2)
      ∧ |(computeFaceMetrics lms matrix_data score).roll - ((poseFromMatrix matrix_data).2.2)| ≤ 1 / 2 / 10 ^ 2)
    ∧ ((computeFaceMetrics lms matrix_data score).center_x = roundTo 4 ((p_eye_l lms).x)
      ∧ |(computeFaceMetrics lms matrix_data score).center_x - ((p_eye_l lms).x)| ≤ 1 / 2 / 10 ^ 4)
    ∧ ((computeFaceMetrics lms matrix_data score).center_y = roundTo 4 ((p_eye_l lms).y)
      ∧ |(computeFaceMetrics lms matrix_data score).center_y - ((p_eye_l lms).y)| ≤ 1 / 2 / 10 ^ 4)
    ∧ ((computeFaceMetrics lms matrix_data score).face_width = roundTo 4 (raw_bw lms)
      ∧ |(computeFaceMetrics lms matrix_data score).face_width - (raw_bw lms)| ≤ 1 / 2 / 10 ^ 4)
    ∧ ((computeFaceMetrics lms matrix_data score).face_scale = roundTo 6 (fscale lms)
      ∧ |(computeFaceMetrics lms matrix_data score).face_scale - (fscale lms)| ≤ 1 / 2 / 10 ^ 6)
    ∧ ((computeFaceMetrics lms matrix_data score).interocular_dist = roundTo 6 (iodist_outer lms)
      ∧ |(computeFaceMetrics lms matrix_data score).interocular_dist - (iodist_outer lms)| ≤ 1 / 2 / 10 ^ 6)
    ∧ ((computeFaceMetrics lms matrix_data score).nose_x = roundTo 4 ((p_nose lms).x)
      ∧ |(computeFaceMetrics lms matrix_data score).nose_x - ((p_nose lms).x)| ≤ 1 / 2 / 10 ^ 4)
    ∧ ((computeFaceMetrics lms matrix_data score).nose_y = roundTo 4 ((p_nose lms).y)
      ∧ |(computeFaceMetrics lms matrix_data score).nose_y - ((p_nose lms).y)| ≤ 1 / 2 / 10 ^ 4)
    ∧ ((computeFaceMetrics lms matrix_data score).eye_l_x = roundTo 4 ((p_eye_l lms).x)
      ∧ |(computeFaceMetrics lms matrix_data score).eye_l_x - ((p_eye_l lms).x)| ≤ 1 / 2 / 10 ^ 4)
    ∧ ((computeFaceMetrics lms matrix_data score).eye_l_y = roundTo 4 ((p_eye_l lms).y)
      ∧ |(computeFaceMetrics lms matrix_data score).eye_l_y - ((p_eye_l lms).y)| ≤ 1 / 2 / 10 ^ 4)
    ∧ ((computeFaceMetrics lms matrix_data score).eye_r_x = roundTo 4 ((p_eye_r lms).x)
      ∧ |(computeFaceMetrics lms matrix_data score).eye_r_x - ((p_eye_r lms).x)| ≤ 1 / 2 / 10 ^ 4)
    ∧ ((computeFaceMetrics lms matrix_data score).eye_r_y = roundTo 4 ((p_eye_r lms).y)
      ∧ |(computeFaceMetrics lms matrix_data score).eye_r_y - ((p_eye_r lms).y)| ≤ 1 / 2 / 10 ^ 4)
    ∧ ((computeFaceMetrics lms matrix_data score).mouth_l_x = roundTo 4 ((p_mouth_l lms).x)
      ∧ |(computeFaceMetrics lms matrix_data score).mouth_l_x - ((p_mouth_l lms).x)| ≤ 1 / 2 / 10 ^ 4)
    ∧ ((computeFaceMetrics lms matrix_data score).mouth_l_y = roundTo 4 ((p_mouth_l lms).y)
      ∧ |(computeFaceMetrics lms matrix_data score).mouth_l_y - ((p_mouth_l lms).y)| ≤ 1 / 2 / 10 ^ 4)
    ∧ ((computeFaceMetrics lms matrix_data score).mouth_r_x = roundTo 4 ((p_mouth_r lms).x)
      ∧ |(computeFaceMetrics lms matrix_data score).mouth_r_x - ((p_mouth_r lms).x)| ≤ 1 / 2 / 10 ^ 4)
    ∧ ((computeFaceMetrics lms matrix_data score).mouth_r_y = roundTo 4 ((p_mouth_r lms).y)
      ∧ |(computeFaceMetrics lms matrix_data score).mouth_r_y - ((p_mouth_r lms).y)| ≤ 1 / 2 / 10 ^ 4)
    ∧ ((computeFaceMetrics lms matrix_data score).eye_li_x = roundTo 4 ((p_eye_li lms).x)
      ∧ |(computeFaceMetrics lms matrix_data score).eye_li_x - ((p_eye_li lms).x)| ≤ 1 / 2 / 10 ^ 4)
    ∧ ((computeFaceMetrics lms matrix_data score).eye_li_y = roundTo 4 ((p_eye_li lms).y)
      ∧ |(computeFaceMetrics lms matrix_data score).eye_li_y - ((p_eye_li lms).y)| ≤ 1 / 2 / 10 ^ 4)
    ∧ ((computeFaceMetrics lms matrix_data score).eye_ri_x = roundTo 4 ((p_eye_ri lms).x)
      ∧ |(computeFaceMetrics lms matrix_data score).eye_ri_x - ((p_eye_ri lms).x)| ≤ 1 / 2 / 10 ^ 4)
    ∧ ((computeFaceMetrics lms matrix_data score).eye_ri_y = roundTo 4 ((p_eye_ri lms).y)
      ∧ |(computeFaceMetrics lms matrix_data score).eye_ri_y - ((p_eye_ri lms).y)| ≤ 1 / 2 / 10 ^ 4)
    ∧ ((computeFaceMetrics lms matrix_data score).iodist_inner = roundTo 6 (iodist_inner lms)
      ∧ |(computeFaceMetrics lms matrix_data score).iodist_inner - (iodist_inner lms)| ≤ 1 / 2 / 10 ^ 6)
    ∧ ((computeFaceMetrics lms matrix_data score).iodist_blend = roundTo 6 (iodist_blend lms)
      ∧ |(computeFaceMetrics lms matrix_data score).iodist_blend - (iodist_blend lms)| ≤ 1 / 2 / 10 ^ 6)
    ∧ ((computeFaceMetrics lms matrix_data score).eye_mouth_dist = roundTo 6 (eye_mouth_dist lms)
      ∧ |(computeFaceMetrics lms matrix_data score).eye_mouth_dist - (eye_mouth_dist lms)| ≤ 1 / 2 / 10 ^ 6)
    ∧ ((computeFaceMetrics lms matrix_data score).chin_x = roundTo 4 ((p_chin lms).x)
      ∧ |(computeFaceMetrics lms matrix_data score).chin_x - ((p_chin lms).x)| ≤ 1 / 2 / 10 ^ 4)
    ∧ ((computeFaceMetrics lms matrix_data score).chin_y = roundTo 4 ((p_chin lms).y)
      ∧ |(computeFaceMetrics lms matrix_data score).chin_y - ((p_chin lms).y)| ≤ 1 / 2 / 10 ^ 4)
    ∧ ((computeFaceMetrics lms matrix_data score).oval_l_x = roundTo 4 ((p_oval_l lms).x)
      ∧ |(computeFaceMetrics lms matrix_data score).oval_l_x - ((p_oval_l lms).x)| ≤ 1 / 2 / 10 ^ 4)
    ∧ ((computeFaceMetrics lms matrix_data score).oval_l_y = roundTo 4 ((p_oval_l lms).y)
      ∧ |(computeFaceMetrics lms matrix_data score).oval_l_y - ((p_oval_l lms).y)| ≤ 1 / 2 / 10 ^ 4)
    ∧ ((computeFaceMetrics lms matrix_data score).oval_r_x = roundTo 4 ((p_oval_r lms).x)
      ∧ |(computeFaceMetrics lms matrix_data score).oval_r_x - ((p_oval_r lms).x)| ≤ 1 / 2 / 10 ^ 4)
    ∧ ((computeFaceMetrics lms matrix_data score).oval_r_y = roundTo 4 ((p_oval_r lms).y)
      ∧ |(computeFaceMetrics lms matrix_data score).oval_r_y - ((p_oval_r lms).y)| ≤ 1 / 2 / 10 ^ 4)
    ∧ ((computeFaceMetrics lms matrix_data score).oval_width = roundTo 6 (oval_width lms)
      ∧ |(computeFaceMetrics lms matrix_data score).oval_width - (oval_width lms)| ≤ 1 / 2 / 10 ^ 6)
    ∧ ((computeFaceMetrics lms matrix_data score).forehead_x = roundTo 4 ((p_forehead lms).x)
      ∧ |(computeFaceMetrics lms matrix_data score).forehead_x - ((p_forehead lms).x)| ≤ 1 / 2 / 10 ^ 4)
    ∧ ((computeFaceMetrics lms matrix_data score).forehead_y = roundTo 4 ((p_forehead lms).y)
      ∧ |(computeFaceMetrics lms matrix_data score).forehead_y - ((p_forehead lms).y)| ≤ 1 / 2 / 10 ^ 4)
    ∧ ((computeFaceMetrics lms matrix_data score).face_height = roundTo 6 (face_height lms)
      ∧ |(computeFaceMetrics lms matrix_data score).face_height - (face_height lms)| ≤ 1 / 2 / 10 ^ 6)
    ∧ ((computeFaceMetrics lms matrix_data score).src_scale_px = roundTo 6 (src_scale_px lms)
      ∧ |(computeFaceMetrics lms matrix_data score).src_scale_px - (src_scale_px lms)| ≤ 1 / 2 / 10 ^ 6)
    ∧ ((computeFaceMetrics lms matrix_data score).nose_eye_dist = roundTo 6 (nedist lms)
      ∧ |(computeFaceMetrics lms matrix_data score).nose_eye_dist - (nedist lms)| ≤ 1 / 2 / 10 ^ 6)
    ∧ ((computeFaceMetrics lms matrix_data score).landmark_confidence = roundTo 3 (landmark_confidence lms score)
      ∧ |(computeFaceMetrics lms matrix_data score).landmark_confidence - (landmark_confidence lms score)| ≤ 1 / 2 / 10 ^ 3)
    ∧ ((computeFaceMetrics lms matrix_data score).score = roundTo 3 (score)
      ∧ |(computeFaceMetrics lms matrix_data score).score - (score)| ≤ 1 / 2 / 10 ^ 3) := by
  refine ⟨⟨rfl, ?_⟩, ⟨rfl, ?_⟩, ⟨rfl, ?_⟩, ⟨rfl, ?_⟩, ⟨rfl, ?_⟩, ⟨rfl, ?_⟩, ⟨rfl, ?_⟩, ⟨rfl, ?_⟩, ⟨rfl, ?_⟩, ⟨rfl, ?_⟩, ⟨rfl, ?_⟩, ⟨rfl, ?_⟩, ⟨rfl, ?_⟩, ⟨rfl, ?_⟩, ⟨rfl, ?_⟩, ⟨rfl, ?_⟩, ⟨rfl, ?_⟩, ⟨rfl, ?_⟩, ⟨rfl, ?_⟩, ⟨rfl, ?_⟩, ⟨rfl, ?_⟩, ⟨rfl, ?_⟩, ⟨rfl, ?_⟩, ⟨rfl, ?_⟩, ⟨rfl, ?_⟩, ⟨rfl, ?_⟩, ⟨rfl, ?_⟩, ⟨rfl, ?_⟩, ⟨rfl, ?_⟩, ⟨rfl, ?_⟩, ⟨rfl, ?_⟩, ⟨rfl, ?_⟩, ⟨rfl, ?_⟩, ⟨rfl, ?_⟩, ⟨rfl, ?_⟩, ⟨rfl, ?_⟩, ⟨rfl, ?_⟩, ⟨rfl, ?_⟩, ⟨rfl, ?_⟩⟩
  · exact abs_roundTo_sub_le 2 ((poseFromMatrix matrix_data).1)
  · exact abs_roundTo_sub_le 2 ((poseFromMatrix matrix_data).2.1)
  · exact abs_roundTo_sub_le 2 ((poseFromMatrix matrix_data).2.2)
  · exact abs_roundTo_sub_le 4 ((p_eye_l lms).x)
  · exact abs_roundTo_sub_le 4 ((p_eye_l lms).y)
  · exact abs_roundTo_sub_le 4 (raw_bw lms)
  · exact abs_roundTo_sub_le 6 (fscale lms)
  · exact abs_roundTo_sub_le 6 (iodist_outer lms)
  · exact abs_roundTo_sub_le 4 ((p_nose lms).x)
  · exact abs_roundTo_sub_le 4 ((p_nose lms).y)
  · exact abs_roundTo_sub_le 4 ((p_eye_l lms).x)
  · exact abs_roundTo_sub_le 4 ((p_eye_l lms).y)
  · exact abs_roundTo_sub_le 4 ((p_eye_r lms).x)
  · exact abs_roundTo_sub_le 4 ((p_eye_r lms).y)
  · exact abs_roundTo_sub_le 4 ((p_mouth_l lms).x)
  · exact abs_roundTo_sub_le 4 ((p_mouth_l lms).y)
  · exact abs_roundTo_sub_le 4 ((p_mouth_r lms).x)
  · exact abs_roundTo_sub_le 4 ((p_mouth_r lms).y)
  · exact abs_roundTo_sub_le 4 ((p_eye_li lms).x)
  · exact abs_roundTo_sub_le 4 ((p_eye_li lms).y)
  · exact abs_roundTo_sub_le 4 ((p_eye_ri lms).x)
  · exact abs_roundTo_sub_le 4 ((p_eye_ri lms).y)
  · exact abs_roundTo_sub_le 6 (iodist_inner lms)
  · exact abs_roundTo_sub_le 6 (iodist_blend lms)
  · exact abs_roundTo_sub_le 6 (eye_mouth_dist lms)
  · exact abs_roundTo_sub_le 4 ((p_chin lms).x)
  · exact abs_roundTo_sub_le 4 ((p_chin lms).y)
  · exact abs_roundTo_sub_le 4 ((p_oval_l lms).x)
  · exact abs_roundTo_sub_le 4 ((p_oval_l lms).y)
  · exact abs_roundTo_sub_le 4 ((p_oval_r lms).x)
  · exact abs_roundTo_sub_le 4 ((p_oval_r lms).y)
  · exact abs_roundTo_sub_le 6 (oval_width lms)
  · exact abs_roundTo_sub_le 4 ((p_forehead lms).x)
  · exact abs_roundTo_sub_le 4 ((p_forehead lms).y)
  · exact abs_roundTo_sub_le 6 (face_height lms)
  · exact abs_roundTo_sub_le 6 (src_scale_px lms)
  · exact abs_roundTo_sub_le 6 (nedist lms)
  · exact abs_roundTo_sub_le 3 (landmark_confidence lms score)
  · exact abs_roundTo_sub_le 3 (score)

-- ### C6

/-- C6: for every landmark list of at least 455 entries whose x and y
coordinates all lie in [0, 1], every coordinate field of the returned
`FaceMetrics` lies in [0, 1], and every derived distance field is
non-negative. -/
theorem C6_output_invariants (lms : List SimpleLandmark)
    (matrix_data : Option (List ℝ)) (score : ℝ) (hlen : 455 ≤ lms.length)
    (hx : ∀ lm ∈ lms, (0 ≤ lm.x ∧ lm.x ≤ 1) ∧ (0 ≤ lm.y ∧ lm.y ≤ 1)) :
    (0 ≤ (computeFaceMetrics lms matrix_data score).center_x ∧ (computeFaceMetrics lms matrix_data score).center_x ≤ 1)
    ∧ (0 ≤ (computeFaceMetrics lms matrix_data score).center_y ∧ (computeFaceMetrics lms matrix_data score).center_y ≤ 1)
    ∧ (0 ≤ (computeFaceMetrics lms matrix_data score).nose_x ∧ (computeFaceMetrics lms matrix_data score).nose_x ≤ 1)
    ∧ (0 ≤ (computeFaceMetrics lms matrix_data score).nose_y ∧ (computeFaceMetrics lms matrix_data score).nose_y ≤ 1)
    ∧ (0 ≤ (computeFaceMetrics lms matrix_data score).eye_l_x ∧ (computeFaceMetrics lms matrix_data score).eye_l_x ≤ 1)
    ∧ (0 ≤ (computeFaceMetrics lms matrix_data score).eye_l_y ∧ (computeFaceMetrics lms matrix_data score).eye_l_y ≤ 1)
    ∧ (0 ≤ (computeFaceMetrics lms matrix_data score).eye_r_x ∧ (computeFaceMetrics lms matrix_data score).eye_r_x ≤ 1)
    ∧ (0 ≤ (computeFaceMetrics lms matrix_data score).eye_r_y ∧ (computeFaceMetrics lms matrix_data score).eye_r_y ≤ 1)
    ∧ (0 ≤ (computeFaceMetrics lms matrix_data score).eye_li_x ∧ (computeFaceMetrics lms matrix_data score).eye_li_x ≤ 1)
    ∧ (0 ≤ (computeFaceMetrics lms matrix_data score).eye_li_y ∧ (computeFaceMetrics lms matrix_data score).eye_li_y ≤ 1)
    ∧ (0 ≤ (computeFaceMetrics lms matrix_data score).eye_ri_x ∧ (computeFaceMetrics lms matrix_data score).eye_ri_x ≤ 1)
    ∧ (0 ≤ (computeFaceMetrics lms matrix_data score).eye_ri_y ∧ (computeFaceMetrics lms matrix_data score).eye_ri_y ≤ 1)
    ∧ (0 ≤ (computeFaceMetrics lms matrix_data score).mouth_l_x ∧ (computeFaceMetrics lms matrix_data score).mouth_l_x ≤ 1)
    ∧ (0 ≤ (computeFaceMetrics lms matrix_data score).mouth_l_y ∧ (computeFaceMetrics lms matrix_data score).mouth_l_y ≤ 1)
    ∧ (0 ≤ (computeFaceMetrics lms matrix_data score).mouth_r_x ∧ (computeFaceMetrics lms matrix_data score).mouth_r_x ≤ 1)
    ∧ (0 ≤ (computeFaceMetrics lms matrix_data score).mouth_r_y ∧ (computeFaceMetrics lms matrix_data score).mouth_r_y ≤ 1)
    ∧ (0 ≤ (computeFaceMetrics lms matrix_data score).chin_x ∧ (computeFaceMetrics lms matrix_data score).chin_x ≤ 1)
    ∧ (0 ≤ (computeFaceMetrics lms matrix_data score).chin_y ∧ (computeFaceMetrics lms matrix_data score).chin_y ≤ 1)
    ∧ (0 ≤ (computeFaceMetrics lms matrix_data score).oval_l_x ∧ (computeFaceMetrics lms matrix_data score).oval_l_x ≤ 1)
    ∧ (0 ≤ (computeFaceMetrics lms matrix_data score).oval_l_y ∧ (computeFaceMetrics lms matrix_data score).oval_l_y ≤ 1)
    ∧ (0 ≤ (computeFaceMetrics lms matrix_data score).oval_r_x ∧ (computeFaceMetrics lms matrix_data score).oval_r_x ≤ 1)
    ∧ (0 ≤ (computeFaceMetrics lms matrix_data score).oval_r_y ∧ (computeFaceMetrics lms matrix_data score).oval_r_y ≤ 1)
    ∧ (0 ≤ (computeFaceMetrics lms matrix_data score).forehead_x ∧ (computeFaceMetrics lms matrix_data score).forehead_x ≤ 1)
    ∧ (0 ≤ (computeFaceMetrics lms matrix_data score).forehead_y ∧ (computeFaceMetrics lms matrix_data score).forehead_y ≤ 1)
    ∧ 0 ≤ (computeFaceMetrics lms matrix_data score).face_scale
    ∧ 0 ≤ (computeFaceMetrics lms matrix_data score).interocular_dist
    ∧ 0 ≤ (computeFaceMetrics lms matrix_data score).iodist_inner
    ∧ 0 ≤ (computeFaceMetrics lms matrix_data score).iodist_blend
    ∧ 0 ≤ (computeFaceMetrics lms matrix_data score).eye_mouth_dist
    ∧ 0 ≤ (computeFaceMetrics lms matrix_data score).oval_width
    ∧ 0 ≤ (computeFaceMetrics lms matrix_data score).nose_eye_dist
    ∧ 0 ≤ (computeFaceMetrics lms matrix_data score).face_height
    ∧ 0 ≤ (computeFaceMetrics lms matrix_data score).src_scale_px
    ∧ 0 ≤ (computeFaceMetrics lms matrix_data score).face_width := by
  have hb : ∀ idx : ℕ, idx < lms.length →
      (0 ≤ (lms.getD idx default).x ∧ (lms.getD idx default).x ≤ 1)
      ∧ (0 ≤ (lms.getD idx default).y ∧ (lms.getD idx default).y ≤ 1) :=
    fun idx h => hx _ (getD_mem h default)
  have hn1 := hb NOSE_TIP (by unfold NOSE_TIP; omega)
  have h33 := hb EYE_L_OUTER (by unfold EYE_L_OUTER; omega)
  have h263 := hb EYE_R_OUTER (by unfold EYE_R_OUTER; omega)
  have h61 := hb MOUTH_L_CORNER (by unfold MOUTH_L_CORNER; omega)
  have h291 := hb MOUTH_R_CORNER (by unfold MOUTH_R_CORNER; omega)
  have h133 := hb EYE_L_INNER (by unfold EYE_L_INNER; omega)
  have h362 := hb EYE_R_INNER (by unfold EYE_R_INNER; omega)
  have h152 := hb CHIN_TIP (by unfold CHIN_TIP; omega)
  have h234 := hb OVAL_L (by unfold OVAL_L; omega)
  have h454 := hb OVAL_R (by unfold OVAL_R; omega)
  have h10 := hb FOREHEAD_TOP (by unfold FOREHEAD_TOP; omega)
  have hinner : 0 ≤ iodist_inner lms := Real.sqrt_nonneg _
  have houter : 0 ≤ iodist_outer lms := Real.sqrt_nonneg _
  have hoval : 0 ≤ oval_width lms := Real.sqrt_nonneg _
  have hfh : 0 ≤ face_height lms := Real.sqrt_nonneg _
  have hblend : 0 ≤ iodist_blend lms := by
    unfold iodist_blend
    have t1 : (0 : ℝ) ≤ 0.6 * iodist_inner lms :=
      mul_nonneg (by norm_num) hinner
    have t2 : (0 : ℝ) ≤ 0.4 * iodist_outer lms :=
      mul_nonneg (by norm_num) houter
    linarith
  have hsrc : 0 ≤ src_scale_px lms := by
    unfold src_scale_px
    have t1 : (0 : ℝ) ≤ 0.55 * iodist_blend lms :=
      mul_nonneg (by norm_num) hblend
    have t2 : (0 : ℝ) ≤ 0.30 * oval_width lms :=
      mul_nonneg (by norm_num) hoval
    have t3 : (0 : ℝ) ≤ 0.15 * face_height lms :=
      mul_nonneg (by norm_num) hfh
    linarith
  have hbw : 0 ≤ raw_bw lms := by
    unfold raw_bw
    have hne : x_coords lms ≠ [] := by
      unfold x_coords
      intro hcon
      rw [List.map_eq_nil_iff] at hcon
      rw [hcon] at hlen
      simp at hlen
    linarith [listMin_le_listMax hne]
  exact ⟨⟨roundTo_nonneg 4 h33.1.1, roundTo_le_one 4 h33.1.2⟩,
    ⟨roundTo_nonneg 4 h33.2.1, roundTo_le_one 4 h33.2.2⟩,
    ⟨roundTo_nonneg 4 hn1.1.1, roundTo_le_one 4 hn1.1.2⟩,
    ⟨roundTo_nonneg 4 hn1.2.1, roundTo_le_one 4 hn1.2.2⟩,
    ⟨roundTo_nonneg 4 h33.1.1, roundTo_le_one 4 h33.1.2⟩,
    ⟨roundTo_nonneg 4 h33.2.1, roundTo_le_one 4 h33.2.2⟩,
    ⟨roundTo_nonneg 4 h263.1.1, roundTo_le_one 4 h263.1.2⟩,
    ⟨roundTo_nonneg 4 h263.2.1, roundTo_le_one 4 h263.2.2⟩,
    ⟨roundTo_nonneg 4 h133.1.1, roundTo_le_one 4 h133.1.2⟩,
    ⟨roundTo_nonneg 4 h133.2.1, roundTo_le_one 4 h133.2.2⟩,
    ⟨roundTo_nonneg 4 h362.1.1, roundTo_le_one 4 h362.1.2⟩,
    ⟨roundTo_nonneg 4 h362.2.1, roundTo_le_one 4 h362.2.2⟩,
    ⟨roundTo_nonneg 4 h61.1.1, roundTo_le_one 4 h61.1.2⟩,
    ⟨roundTo_nonneg 4 h61.2.1, roundTo_le_one 4 h61.2.2⟩,
    ⟨roundTo_nonneg 4 h291.1.1, roundTo_le_one 4 h291.1.2⟩,
    ⟨roundTo_nonneg 4 h291.2.1, roundTo_le_one 4 h291.2.2⟩,
    ⟨roundTo_nonneg 4 h152.1.1, roundTo_le_one 4 h152.1.2⟩,
    ⟨roundTo_nonneg 4 h152.2.1, roundTo_le_one 4 h152.2.2⟩,
    ⟨roundTo_nonneg 4 h234.1.1, roundTo_le_one 4 h234.1.2⟩,
    ⟨roundTo_nonneg 4 h234.2.1, roundTo_le_one 4 h234.2.2⟩,
    ⟨roundTo_nonneg 4 h454.1.1, roundTo_le_one 4 h454.1.2⟩,
    ⟨roundTo_nonneg 4 h454.2.1, roundTo_le_one 4 h454.2.2⟩,
    ⟨roundTo_nonneg 4 h10.1.1, roundTo_le_one 4 h10.1.2⟩,
    ⟨roundTo_nonneg 4 h10.2.1, roundTo_le_one 4 h10.2.2⟩,
    roundTo_nonneg 6 (Real.sqrt_nonneg _),
    roundTo_nonneg 6 (Real.sqrt_nonneg _),
    roundTo_nonneg 6 (Real.sqrt_nonneg _),
    roundTo_nonneg 6 hblend,
    roundTo_nonneg 6 (Real.sqrt_nonneg _),
    roundTo_nonneg 6 (Real.sqrt_nonneg _),
    roundTo_nonneg 6 (Real.sqrt_nonneg _),
    roundTo_nonneg 6 (Real.sqrt_nonneg _),
    roundTo_nonneg 6 hsrc,
    roundTo_nonneg 4 hbw⟩

-- ### C2

/-- C2 (amended): for every landmark list of at least 455 entries and every
score, the `landmark_confidence` field returned by `compute_face_metrics`
is the arithmetic mean of `(visibility + presence)/2` over the 7 landmarks
at indices 33, 263, 133, 362, 1, 61, 291 (each value clamped to [0, 1]),
rounded to 3 decimal places.  When the confidence fields are absent they
default to 1.0 and the mean is computed from those defaults: the
detection-score fallback in the source is unreachable because these 7
confidence values always exist. -/
theorem C2_landmark_confidence_mean (lms : List SimpleLandmark)
    (matrix_data : Option (List ℝ)) (score : ℝ) (hlen : 455 ≤ lms.length) :
    (computeFaceMetrics lms matrix_data score).landmark_confidence
      = roundTo 3
        (((clamp_unit (lms.getD 33 default).visibility
            + clamp_unit (lms.getD 33 default).presence) / 2
          + (clamp_unit (lms.getD 263 default).visibility
            + clamp_unit (lms.getD 263 default).presence) / 2
          + (clamp_unit (lms.getD 133 default).visibility
            + clamp_unit (lms.getD 133 default).presence) / 2
          + (clamp_unit (lms.getD 362 default).visibility
            + clamp_unit (lms.getD 362 default).presence) / 2
          + (clamp_unit (lms.getD 1 default).visibility
            + clamp_unit (lms.getD 1 default).presence) / 2
          + (clamp_unit (lms.getD 61 default).visibility
            + clamp_unit (lms.getD 61 default).presence) / 2
          + (clamp_unit (lms.getD 291 default).visibility
            + clamp_unit (lms.getD 291 default).presence) / 2) / 7) := by
  have harg : landmark_confidence lms score
      = ((clamp_unit (lms.getD 33 default).visibility
            + clamp_unit (lms.getD 33 default).presence) / 2
          + (clamp_unit (lms.getD 263 default).visibility
            + clamp_unit (lms.getD 263 default).presence) / 2
          + (clamp_unit (lms.getD 133 default).visibility
            + clamp_unit (lms.getD 133 default).presence) / 2
          + (clamp_unit (lms.getD 362 default).visibility
            + clamp_unit (lms.getD 362 default).presence) / 2
          + (clamp_unit (lms.getD 1 default).visibility
            + clamp_unit (lms.getD 1 default).presence) / 2
          + (clamp_unit (lms.getD 61 default).visibility
            + clamp_unit (lms.getD 61 default).presence) / 2
          + (clamp_unit (lms.getD 291 default).visibility
            + clamp_unit (lms.getD 291 default).presence) / 2) / 7 := by
    unfold landmark_confidence confidence_values confidence_points
      p_eye_l p_eye_r p_eye_li p_eye_ri p_nose p_mouth_l p_mouth_r
      EYE_L_OUTER EYE_R_OUTER EYE_L_INNER EYE_R_INNER NOSE_TIP
      MOUTH_L_CORNER MOUTH_R_CORNER
    simp only [List.map_cons, List.map_nil]
    rw [if_neg (List.cons_ne_nil _ _)]
    simp only [List.sum_cons, List.sum_nil, List.length_cons, List.length_nil]
    norm_num
    try ring
  show roundTo 3 (landmark_confidence lms score)
      = roundTo 3 (((clamp_unit (lms.getD 33 default).visibility
            + clamp_unit (lms.getD 33 default).presence) / 2
          + (clamp_unit (lms.getD 263 default).visibility
            + clamp_unit (lms.getD 263 default).presence) / 2
          + (clamp_unit (lms.getD 133 default).visibility
            + clamp_unit (lms.getD 133 default).presence) / 2
          + (clamp_unit (lms.getD 362 default).visibility
            + clamp_unit (lms.getD 362 default).presence) / 2
          + (clamp_unit (lms.getD 1 default).visibility
            + clamp_unit (lms.getD 1 default).presence) / 2
          + (clamp_unit (lms.getD 61 default).visibility
            + clamp_unit (lms.getD 61 default).presence) / 2
          + (clamp_unit (lms.getD 291 default).visibility
            + clamp_unit (lms.getD 291 default).presence) / 2) / 7)
  rw [harg]

theorem C2_landmark_confidence_mean_witness :
    455 ≤ sampleLandmarks.length
    ∧ (computeFaceMetrics sampleLandmarks none 0).landmark_confidence
      = roundTo 3
        ((((clamp_unit (sampleLandmarks.getD 33 default).visibility
            + clamp_unit (sampleLandmarks.getD 33 default).presence) / 2
          + (clamp_unit (sampleLandmarks.getD 263 default).visibility
            + clamp_unit (sampleLandmarks.getD 263 default).presence) / 2
          + (clamp_unit (sampleLandmarks.getD 133 default).visibility
            + clamp_unit (sampleLandmarks.getD 133 default).presence) / 2
          + (clamp_unit (sampleLandmarks.getD 362 default).visibility
            + clamp_unit (sampleLandmarks.getD 362 default).presence) / 2
          + (clamp_unit (sampleLandmarks.getD 1 default).visibility
            + clamp_unit (sampleLandmarks.getD 1 default).presence) / 2
          + (clamp_unit (sampleLandmarks.getD 61 default).visibility
            + clamp_unit (sampleLandmarks.getD 61 default).presence) / 2
          + (clamp_unit (sampleLandmarks.getD 291 default).visibility
            + clamp_unit (sampleLandmarks.getD 291 default).presence) / 2)) / 7) :=
  ⟨by rw [sampleLandmarks_length],
   C2_landmark_confidence_mean sampleLandmarks none 0 (by rw [sampleLandmarks_length])⟩

theorem C2_counterexample :
    (computeFaceMetrics sampleLandmarks none (1 / 2)).landmark_confidence = 1
    ∧ clamp_unit (1 / 2) = 1 / 2
    ∧ (computeFaceMetrics sampleLandmarks none (1 / 2)).landmark_confidence
      ≠ clamp_unit (1 / 2) := by
  have hlm : ∀ i : ℕ, i < 455 →
      sampleLandmarks.getD i default = { x := 1 / 2, y := 1 / 2 } :=
    fun i h => sampleLandmarks_getD h
  have hone : (computeFaceMetrics sampleLandmarks none (1 / 2)).landmark_confidence
      = 1 := by
    show roundTo 3 (landmark_confidence sampleLandmarks (1 / 2)) = 1
    have hlc : landmark_confidence sampleLandmarks (1 / 2) = 1 := by
      unfold landmark_confidence confidence_values confidence_points
        p_eye_l p_eye_r p_eye_li p_eye_ri p_nose p_mouth_l p_mouth_r
      rw [hlm EYE_L_OUTER (by decide), hlm EYE_R_OUTER (by decide),
        hlm EYE_L_INNER (by decide), hlm EYE_R_INNER (by decide),
        hlm NOSE_TIP (by decide), hlm MOUTH_L_CORNER (by decide),
        hlm MOUTH_R_CORNER (by decide)]
      simp only [List.map_cons, List.map_nil]
      rw [if_neg (List.cons_ne_nil _ _)]
      norm_num [clamp_unit]
    rw [hlc, roundTo_one]
  refine ⟨hone, by norm_num [clamp_unit], ?_⟩
  rw [hone]
  norm_num [clamp_unit]

-- ### C3

/-- An all-zero `FaceMetrics` (every angle an exact 2-decimal value). -/
noncomputable def fmZero : FaceMetrics :=
  {
    pitch := 0
    yaw := 0
    roll := 0
    center_x := 0
    center_y := 0
    face_width := 0
    face_scale := 0
    interocular_dist := 0
    nose_x := 0
    nose_y := 0
    eye_l_x := 0
    eye_l_y := 0
    eye_r_x := 0
    eye_r_y := 0
    mouth_l_x := 0
    mouth_l_y := 0
    mouth_r_x := 0
    mouth_r_y := 0
    eye_li_x := 0
    eye_li_y := 0
    eye_ri_x := 0
    eye_ri_y := 0
    iodist_inner := 0
    iodist_blend := 0
    eye_mouth_dist := 0
    chin_x := 0
    chin_y := 0
    oval_l_x := 0
    oval_l_y := 0
    oval_r_x := 0
    oval_r_y := 0
    oval_width := 0
    forehead_x := 0
    forehead_y := 0
    face_height := 0
    src_scale_px := 0
    nose_eye_dist := 0
    landmark_confidence := 0
    score := 0 }

/-- A `FaceMetrics` whose yaw (0.001) is not representable at 2 decimal places. -/
noncomputable def fmC3 : FaceMetrics :=
  {
    pitch := 0
    yaw := 1 / 1000
    roll := 0
    center_x := 0
    center_y := 0
    face_width := 0
    face_scale := 0
    interocular_dist := 0
    nose_x := 0
    nose_y := 0
    eye_l_x := 0
    eye_l_y := 0
    eye_r_x := 0
    eye_r_y := 0
    mouth_l_x := 0
    mouth_l_y := 0
    mouth_r_x := 0
    mouth_r_y := 0
    eye_li_x := 0
    eye_li_y := 0
    eye_ri_x := 0
    eye_ri_y := 0
    iodist_inner := 0
    iodist_blend := 0
    eye_mouth_dist := 0
    chin_x := 0
    chin_y := 0
    oval_l_x := 0
    oval_l_y := 0
    oval_r_x := 0
    oval_r_y := 0
    oval_width := 0
    forehead_x := 0
    forehead_y := 0
    face_height := 0
    src_scale_px := 0
    nose_eye_dist := 0
    landmark_confidence := 0
    score := 0 }

/-- C3 (amended): for every original `FaceMetrics` whose yaw and roll are
exact 2-decimal values (as every output of `compute_face_metrics` is) and
every landmark list of at least 455 entries, the mirrored output
(`build_mirrored_landmarks` followed by `build_mirrored_metrics`) has yaw
and roll negated, pitch unchanged, and every mirrored landmark is the
original landmark at the left/right-swapped index with its x-coordinate
flipped to `1 - x` (y, z, visibility, presence unchanged). -/
theorem C3_mirrored_metrics (original : FaceMetrics) (lms : List SimpleLandmark)
    (hlen : 455 ≤ lms.length)
    (hyaw : ∃ k : ℤ, original.yaw = (k : ℝ) / 100)
    (hroll : ∃ k : ℤ, original.roll = (k : ℝ) / 100) :
    (build_mirrored_metrics original (build_mirrored_landmarks lms)).pitch
      = original.pitch
    ∧ (build_mirrored_metrics original (build_mirrored_landmarks lms)).yaw
      = -original.yaw
    ∧ (build_mirrored_metrics original (build_mirrored_landmarks lms)).roll
      = -original.roll
    ∧ (build_mirrored_landmarks lms).length = lms.length
    ∧ ∀ i, i < lms.length →
        (build_mirrored_landmarks lms).getD i default
          = flipLandmark (lms.getD (mirrorIndex i) default) := by
  obtain ⟨ky, hky⟩ := hyaw
  obtain ⟨kr, hkr⟩ := hroll
  refine ⟨rfl, ?_, ?_, build_mirrored_landmarks_length lms,
    fun i hi => build_mirrored_landmarks_getD hlen hi⟩
  · show roundTo 2 (-original.yaw) = -original.yaw
    rw [hky,
      show -(((ky : ℤ) : ℝ) / 100) = (((-ky : ℤ) : ℝ)) / 10 ^ 2 by push_cast; ring]
    exact roundTo_int_div 2 (-ky)
  · show roundTo 2 (-original.roll) = -original.roll
    rw [hkr,
      show -(((kr : ℤ) : ℝ) / 100) = (((-kr : ℤ) : ℝ)) / 10 ^ 2 by push_cast; ring]
    exact roundTo_int_div 2 (-kr)

theorem C3_mirrored_metrics_witness :
    455 ≤ sampleLandmarks.length
    ∧ (∃ k : ℤ, fmZero.yaw = (k : ℝ) / 100)
    ∧ (∃ k : ℤ, fmZero.roll = (k : ℝ) / 100)
    ∧ (build_mirrored_metrics fmZero (build_mirrored_landmarks sampleLandmarks)).yaw
      = -fmZero.yaw := by
  have hlen : 455 ≤ sampleLandmarks.length := by rw [sampleLandmarks_length]
  have hy : ∃ k : ℤ, fmZero.yaw = (k : ℝ) / 100 := ⟨0, by norm_num [fmZero]⟩
  have hr : ∃ k : ℤ, fmZero.roll = (k : ℝ) / 100 := ⟨0, by norm_num [fmZero]⟩
  exact ⟨hlen, hy, hr,
    (C3_mirrored_metrics fmZero sampleLandmarks hlen hy hr).2.1⟩

theorem C3_counterexample :
    fmC3.yaw = 1 / 1000
    ∧ (build_mirrored_metrics fmC3 (build_mirrored_landmarks sampleLandmarks)).yaw = 0
    ∧ (build_mirrored_metrics fmC3 (build_mirrored_landmarks sampleLandmarks)).yaw
      ≠ -fmC3.yaw := by
  have hy : (build_mirrored_metrics fmC3 (build_mirrored_landmarks sampleLandmarks)).yaw
      = roundTo 2 (-fmC3.yaw) := rfl
  have hval : fmC3.yaw = 1 / 1000 := rfl
  have hcomp : roundTo 2 (-(1 / 1000 : ℝ)) = 0 := by
    unfold roundTo
    rw [show (-(1 / 1000 : ℝ)) * 10 ^ 2 = -(1 / 10) by norm_num]
    have hfl : ⌊(-(1 / 10) : ℝ)⌋ = -1 := by
      rw [Int.floor_eq_iff]
      constructor
      · norm_num
      · norm_num
    have hfr : Int.fract (-(1 / 10) : ℝ) = 9 / 10 := by
      have hdef : Int.fract (-(1 / 10) : ℝ) = -(1 / 10) - ⌊(-(1 / 10) : ℝ)⌋ := rfl
      rw [hdef, hfl]
      norm_num
    unfold pyRound
    rw [hfr, hfl, if_pos (Or.inl (by norm_num))]
    norm_num
  refine ⟨hval, ?_, ?_⟩
  · rw [hy, hval]
    exact hcomp
  · rw [hy, hval, hcomp]
    norm_num

theorem C6_output_invariants_witness :
    455 ≤ sampleLandmarks.length
    ∧ (∀ lm ∈ sampleLandmarks, (0 ≤ lm.x ∧ lm.x ≤ 1) ∧ (0 ≤ lm.y ∧ lm.y ≤ 1))
    ∧ (0 ≤ (computeFaceMetrics sampleLandmarks none 0).center_x
       ∧ (computeFaceMetrics sampleLandmarks none 0).center_x ≤ 1) := by
  have hlen : 455 ≤ sampleLandmarks.length := by rw [sampleLandmarks_length]
  have hx : ∀ lm ∈ sampleLandmarks,
      (0 ≤ lm.x ∧ lm.x ≤ 1) ∧ (0 ≤ lm.y ∧ lm.y ≤ 1) := by
    intro lm hm
    rw [List.eq_of_mem_replicate hm]
    norm_num
  exact ⟨hlen, hx, (C6_output_invariants sampleLandmarks none 0 hlen hx).1⟩
